import Mathlib

/-!
Verification development for the BeardedVibes server (Express + SQLite/Postgres
social media app).  The definitions below are a shallow embedding of the
database access layer (`database.js`) and of the relevant Express route
handlers (`server.js`).  SQL tables become lists of row structures, prepared
statements become pure functions on a `DB` state, and the route handlers
become functions from a request description to an outcome that records both
the HTTP response and every storage / database side effect.

Timestamps (ISO strings in the code, ordered lexicographically which is
chronological order) are modelled as natural numbers.  JavaScript string
truthiness is modelled explicitly: an empty string is falsy.
-/

namespace BeardedVibes

/-- Row of the `posts` table (later revision of `database.js`): columns
`id, filename, type, title, description, uploaderDiscordId, uploaderName,
status, editToken, createdAt, format`. -/
structure Post where
  id : Nat
  filename : String
  type : String
  title : String
  description : String
  uploaderDiscordId : String
  uploaderName : String
  status : String
  editToken : String
  createdAt : Nat
  format : String
deriving DecidableEq, Repr

/-- Row of the `likes` table: `postId, userId, createdAt` (the surrogate `id`
column plays no role in any query and is omitted). -/
structure LikeRow where
  postId : Nat
  userId : Nat
  createdAt : Nat
deriving DecidableEq, Repr

/-- Row of the `comments` table: `id, postId, userId, text, createdAt`. -/
structure CommentRow where
  id : Nat
  postId : Nat
  userId : Nat
  text : String
  createdAt : Nat
deriving DecidableEq, Repr

/-- Row of the `history` table: `postId, userId, viewedAt`. -/
structure HistoryRow where
  postId : Nat
  userId : Nat
  viewedAt : Nat
deriving DecidableEq, Repr

/-- Row of the `watchlist` table: `postId, userId, addedAt`. -/
structure WatchRow where
  postId : Nat
  userId : Nat
  addedAt : Nat
deriving DecidableEq, Repr

/-- Row of the `follows` table: `followerId, followingDiscordId, createdAt`. -/
structure FollowRow where
  followerId : Nat
  followingDiscordId : String
  createdAt : Nat
deriving DecidableEq, Repr

/-- Row of the `users` table (later revision): `id, discordId, username,
avatar, isAdmin, isBanned, isVerified`. -/
structure UserRow where
  id : Nat
  discordId : String
  username : String
  avatar : Option String
  isAdmin : Bool
  isBanned : Bool
  isVerified : Bool
deriving DecidableEq, Repr

/-- The whole relational store. -/
structure DB where
  users : List UserRow
  posts : List Post
  likes : List LikeRow
  comments : List CommentRow
  history : List HistoryRow
  watchlist : List WatchRow
  follows : List FollowRow
deriving DecidableEq, Repr

/-- The empty database (freshly created schema). -/
def DB.empty : DB := ⟨[], [], [], [], [], [], []⟩

/-! ### Like statements (`hasLikeStmt`, `insertLikeStmt`, `deleteLikeStmt`,
`countLikesStmt`, `setLike`, `hasUserLiked`) -/

/-- `SELECT 1 FROM likes WHERE postId = ? AND userId = ?` (row existence). -/
def hasLike (s : DB) (postId userId : Nat) : Bool :=
  s.likes.any fun r => r.postId == postId && r.userId == userId

/-- `INSERT OR IGNORE INTO likes (postId, userId) VALUES (?, ?)`: thanks to
`UNIQUE(postId, userId)` the insert is a no-op when the pair already exists. -/
def insertLike (s : DB) (postId userId now : Nat) : DB :=
  if hasLike s postId userId then s
  else { s with likes := s.likes ++ [⟨postId, userId, now⟩] }

/-- `DELETE FROM likes WHERE postId = ? AND userId = ?`. -/
def deleteLike (s : DB) (postId userId : Nat) : DB :=
  { s with likes := s.likes.filter fun r => !(r.postId == postId && r.userId == userId) }

/-- `SELECT COUNT(*) AS count FROM likes WHERE postId = ?`. -/
def countLikes (s : DB) (postId : Nat) : Nat :=
  (s.likes.filter fun r => r.postId == postId).length

/-- `setLike(postId, userId, like)` from `database.js`: insert or delete the
row, then return the fresh like count for the post. -/
def setLike (s : DB) (postId userId : Nat) (like : Bool) (now : Nat) : DB × Nat :=
  let s' := if like then insertLike s postId userId now else deleteLike s postId userId
  (s', countLikes s' postId)

/-- `hasUserLiked(postId, userId)` from `database.js`. -/
def hasUserLiked (s : DB) (postId userId : Nat) : Bool :=
  hasLike s postId userId

/-! ### Watch-later statements (`addWatchStmt`, `removeWatchStmt`,
`hasWatchStmt`, `setWatchLater`) -/

/-- `SELECT 1 FROM watchlist WHERE postId = ? AND userId = ?`. -/
def hasWatch (s : DB) (postId userId : Nat) : Bool :=
  s.watchlist.any fun r => r.postId == postId && r.userId == userId

/-- `INSERT INTO watchlist ... ON CONFLICT(postId, userId) DO NOTHING`. -/
def addWatch (s : DB) (postId userId now : Nat) : DB :=
  if hasWatch s postId userId then s
  else { s with watchlist := s.watchlist ++ [⟨postId, userId, now⟩] }

/-- `DELETE FROM watchlist WHERE postId = ? AND userId = ?`. -/
def removeWatch (s : DB) (postId userId : Nat) : DB :=
  { s with watchlist := s.watchlist.filter fun r => !(r.postId == postId && r.userId == userId) }

/-- `setWatchLater(postId, userId, add)` from `database.js`: insert or delete
the row and report the resulting membership. -/
def setWatchLater (s : DB) (postId userId : Nat) (add : Bool) (now : Nat) : DB × Bool :=
  if add then (addWatch s postId userId now, true)
  else (removeWatch s postId userId, false)

/-- `hasWatchLater(postId, userId)` from `database.js`. -/
def hasWatchLater (s : DB) (postId userId : Nat) : Bool :=
  hasWatch s postId userId

/-! ### Follow statements (`hasFollowStmt`, `followInsertStmt`,
`followDeleteStmt`, `setFollow`) -/

/-- `SELECT 1 FROM follows WHERE followerId = ? AND followingDiscordId = ?`. -/
def hasFollow (s : DB) (followerId : Nat) (followingDiscordId : String) : Bool :=
  s.follows.any fun r => r.followerId == followerId && r.followingDiscordId == followingDiscordId

/-- `INSERT OR IGNORE INTO follows (followerId, followingDiscordId) VALUES (?, ?)`. -/
def followInsert (s : DB) (followerId : Nat) (followingDiscordId : String) (now : Nat) : DB :=
  if hasFollow s followerId followingDiscordId then s
  else { s with follows := s.follows ++ [⟨followerId, followingDiscordId, now⟩] }

/-- `DELETE FROM follows WHERE followerId = ? AND followingDiscordId = ?`. -/
def followDelete (s : DB) (followerId : Nat) (followingDiscordId : String) : DB :=
  { s with follows := s.follows.filter fun r =>
      !(r.followerId == followerId && r.followingDiscordId == followingDiscordId) }

/-- `setFollow(followerId, followingDiscordId, follow)` from `database.js`. -/
def setFollow (s : DB) (followerId : Nat) (followingDiscordId : String) (follow : Bool)
    (now : Nat) : DB × Bool :=
  if follow then (followInsert s followerId followingDiscordId now, true)
  else (followDelete s followerId followingDiscordId, false)

/-! ### History and comments (`recordViewUpsertStmt`, `insertCommentStmt`) -/

/-- `INSERT INTO history ... ON CONFLICT(postId, userId) DO UPDATE SET
viewedAt = excluded.viewedAt`. -/
def recordView (s : DB) (postId userId now : Nat) : DB :=
  if s.history.any (fun r => r.postId == postId && r.userId == userId) then
    { s with history := s.history.map fun r =>
        if r.postId == postId && r.userId == userId then { r with viewedAt := now } else r }
  else { s with history := s.history ++ [⟨postId, userId, now⟩] }

/-- `INSERT INTO comments (postId, userId, text, createdAt) VALUES (?, ?, ?, ?)`:
a plain insert, the `comments` table has no UNIQUE constraint.  `newId` stands
for the fresh AUTOINCREMENT id. -/
def insertComment (s : DB) (postId userId : Nat) (text : String) (createdAt newId : Nat) : DB × Nat :=
  ({ s with comments := s.comments ++ [⟨newId, postId, userId, text, createdAt⟩] }, newId)

/-! ### Feed queries (`listPublishedStmt`, `searchPosts`, `listTrendingStmt`)

All three select `p.*` plus a `likes` count obtained by a LEFT JOIN on a
GROUP BY of the `likes` table.  The `likes` column for a post is its row
count in the `likes` table (`COALESCE(lc.count, 0)` makes it 0 when the
LEFT JOIN finds nothing; with `ORDER BY lc.count DESC` a NULL count sorts
below every real count in SQLite, and `NULLS LAST` forces the same in
Postgres, so a missing group behaves exactly like count 0). -/

/-- Like count a feed query attaches to a post (`COALESCE(lc.count, 0)`). -/
def postLikes (s : DB) (p : Post) : Nat :=
  countLikes s p.id

/-- Comparator for `ORDER BY p.id DESC`. -/
def byIdDesc (a b : Post) : Bool :=
  b.id ≤ a.id

/-- Comparator for `ORDER BY lc.count DESC, p.createdAt DESC` (descending
lexicographic on the pair (like count, creation time)). -/
def byTrending (s : DB) (a b : Post) : Bool :=
  postLikes s b < postLikes s a ||
    (postLikes s a == postLikes s b && b.createdAt ≤ a.createdAt)

/-- `listPublished`: `WHERE p.status = 'published' ORDER BY p.id DESC`. -/
def listPublished (s : DB) : List Post :=
  ((s.posts.filter fun p => p.status == "published").mergeSort byIdDesc)

/-- `LOWER(x) LIKE LOWER('%q%')`: case-insensitive substring test. -/
def likeContains (hay needle : String) : Bool :=
  decide ((needle.toList.map Char.toLower) <:+: (hay.toList.map Char.toLower))

/-- `searchPosts(query)`: published posts whose title, description or
uploader name contains the query case-insensitively,
`ORDER BY p.id DESC LIMIT 50`. -/
def searchPosts (s : DB) (query : String) : List Post :=
  (((s.posts.filter fun p => p.status == "published" &&
      (likeContains p.title query || likeContains p.description query ||
        likeContains p.uploaderName query)).mergeSort byIdDesc).take 50)

/-- `listTrending`: `WHERE p.status = 'published'
ORDER BY lc.count DESC, p.createdAt DESC LIMIT 100`. -/
def listTrending (s : DB) : List Post :=
  (((s.posts.filter fun p => p.status == "published").mergeSort (byTrending s)).take 100)

/-- `getPostStmt` / `getPost(id)`: `WHERE p.id = ?` (first matching row). -/
def getPost (s : DB) (id : Nat) : Option Post :=
  s.posts.find? fun p => p.id == id

/-- `publishPostStmt`: `UPDATE posts SET title = @title, description =
@description, status = 'published' WHERE id = @id`. -/
def publishPost (s : DB) (id : Nat) (title description : String) : DB :=
  { s with posts := s.posts.map fun p =>
      if p.id == id then { p with title := title, description := description, status := "published" }
      else p }

/-! ### Sessions and `authOptional` (later revision of `server.js`)

A session cookie is a JWT.  `jwt.verify` either throws (invalid or absent
signature: modelled by `valid = false`) or yields the decoded payload, which
carries the denormalized user fields that `signSession` put there.  An absent
field of the payload is modelled by the JavaScript default the code applies
(`?? false` for the flags, falsy check for `discordId`). -/

/-- Decoded JWT session payload as produced by `signSession`:
`{ id, discordId, username, avatar, isAdmin, isBanned }`. -/
structure SessionPayload where
  id : Nat
  discordId : String
  username : String
  avatar : Option String
  isAdmin : Bool
  isBanned : Bool
deriving DecidableEq, Repr

/-- The `req.user` object built by `normalizeUser`. -/
structure SessionUser where
  id : Nat
  discordId : String
  username : String
  avatar : Option String
  isAdmin : Bool
  isBanned : Bool
deriving DecidableEq, Repr

/-- Session cookie: a payload plus whether `jwt.verify` accepts the
signature. -/
structure JwtCookie where
  payload : SessionPayload
  valid : Bool
deriving DecidableEq, Repr

/-- `normalizeUser(user)`: `undefined` unless `discordId` is truthy
(non-empty); flags default to `false` via `?? false`. -/
def normalizeUser (p : SessionPayload) : Option SessionUser :=
  if p.discordId == "" then none
  else some ⟨p.id, p.discordId, p.username, p.avatar, p.isAdmin, p.isBanned⟩

/-- `getUserById(id)` (later revision of `database.js`): `SELECT id,
discordId, username, avatar FROM users WHERE id = ? LIMIT 1`.  The SELECT
omits `isAdmin`/`isBanned`, so on the returned object those properties are
`undefined` and `normalizeUser` defaults them to `false`. -/
def getUserById (s : DB) (id : Nat) : Option SessionPayload :=
  (s.users.find? fun u => u.id == id).map fun u =>
    ⟨u.id, u.discordId, u.username, u.avatar, false, false⟩

/-- Outcome of the `authOptional` middleware. -/
inductive AuthResult where
  /-- `next()` with `req.user = undefined`. -/
  | anonymous : AuthResult
  /-- `next()` with `req.user` set. -/
  | authed (u : SessionUser) : AuthResult
  /-- 403 `{ error: 'Your account has been banned' }`, session cleared. -/
  | bannedReject : AuthResult
deriving DecidableEq, Repr

/-- `authOptional` from the later revision of `server.js`: verify the cookie,
normalize the payload, fall back to a `getUserById` lookup when the payload
has no `discordId`, then reject the request iff the resulting user object has
`isBanned` set. -/
def authOptional (s : DB) (cookie : Option JwtCookie) : AuthResult :=
  match cookie with
  | none => .anonymous
  | some tok =>
    if !tok.valid then .anonymous
    else
      let decoded := tok.payload
      let user :=
        match normalizeUser decoded with
        | some u => some u
        | none =>
          if decoded.id ≠ 0 then (getUserById s decoded.id).bind normalizeUser
          else none
      match user with
      | some u => if u.isBanned then .bannedReject else .authed u
      | none => .anonymous

/-! ### String helpers shared by the handlers -/

/-- JavaScript `String.prototype.trim` (strip surrounding whitespace),
implemented on the character list. -/
def jsTrim (s : String) : String :=
  ⟨((s.toList.dropWhile Char.isWhitespace).reverse.dropWhile Char.isWhitespace).reverse⟩

/-- JavaScript `String.prototype.toLowerCase`, character by character (all
strings it is applied to here are ASCII). -/
def strToLower (s : String) : String :=
  ⟨s.toList.map Char.toLower⟩

/-- JavaScript `String.prototype.slice(0, n)` (truncate to at most `n`
characters). -/
def jsSlice (n : Nat) (s : String) : String :=
  ⟨s.toList.take n⟩

/-- Node `path.extname(name)`: the substring of the basename from its last
dot, except that a dot in first position (hidden files) or an absent dot
yields the empty string. -/
def extname (name : String) : String :=
  let base := (name.toList.reverse.takeWhile (· ≠ '/')).reverse
  match base with
  | [] => ""
  | _ :: rest =>
    let tail := rest.reverse.takeWhile (· ≠ '.')
    if tail.length == rest.length then ""
    else ⟨'.' :: tail.reverse⟩

/-! ### Upload validation (`ALLOWED_EXTENSIONS`, `ALLOWED_MIME`,
`fileFilter`, `detectType` from `server.js`) -/

/-- `new Set(['.jpg', '.jpeg', '.png', '.webp', '.mp4', '.webm'])`. -/
def ALLOWED_EXTENSIONS : List String :=
  [".jpg", ".jpeg", ".png", ".webp", ".mp4", ".webm"]

/-- `new Set(['image/jpeg', 'image/png', 'image/webp', 'video/mp4', 'video/webm'])`. -/
def ALLOWED_MIME : List String :=
  ["image/jpeg", "image/png", "image/webp", "video/mp4", "video/webm"]

/-- One uploaded file as multer presents it: the client-supplied
`originalname` and `mimetype`, plus the multer-generated disk `filename`. -/
structure UploadFile where
  originalname : String
  mimetype : String
  filename : String
deriving DecidableEq, Repr

/-- Multer `fileFilter`: accept iff the lower-cased extension of
`originalname` is allow-listed and the MIME type is allow-listed. -/
def fileFilter (file : UploadFile) : Bool :=
  let ext := strToLower (extname file.originalname)
  ALLOWED_EXTENSIONS.contains ext && ALLOWED_MIME.contains file.mimetype

/-- `detectType(mimetype)` from `server.js` (`startsWith` is a
character-list prefix test). -/
def detectType (mimetype : String) : String :=
  if "image/".toList <+: mimetype.toList then "image"
  else if "video/".toList <+: mimetype.toList then "video"
  else "unknown"

/-- Format auto-detection block of the later upload handler: images are
always 'photo'; videos use the user-selected value when it is 'short' or
'long' and default to 'long'. -/
def formatFor (type : String) (formatVal : Option String) : String :=
  if type == "image" then "photo"
  else match formatVal with
    | some v => if v == "short" || v == "long" then v else "long"
    | none => "long"

/-! ### `POST /api/upload` (later revision of `server.js`) -/

/-- The parts of an upload request the handler consults: `req.user` (set by
`authOptional`), the `file` and `thumbnail` multipart fields, and the
`format`, `publish`, `title`, `description` body fields (`none` = absent). -/
structure UploadRequest where
  user : Option SessionUser
  file : Option UploadFile
  thumbnail : Option UploadFile
  format : Option String
  publish : Option String
  title : Option String
  description : Option String
deriving Repr

/-- Outcome of the upload handler: the HTTP status plus every side effect it
performed — the disk filenames handed to `storage.upload` (in call order),
whether `db.upsertUser` ran, and the row handed to `db.insertPost`. -/
structure UploadOutcome where
  status : Nat
  storageUploads : List String
  userUpserted : Bool
  insertedPost : Option Post
deriving Repr

/-- `POST /api/upload` from the later revision of `server.js`.  `requireAuth`
runs first; multer's `fileFilter` vets every submitted file before the
handler body runs and a rejection surfaces as the `err` branch (400) before
any storage or database call; then the handler checks the file's detected
type, derives `format` (images are forced to `'photo'`; videos use the
user's `short`/`long` selection, defaulting to `'long'`), sanitizes the text
fields, upserts the uploader, uploads to storage, and inserts the draft or
published post.  `editToken` stands for the generated random token, `now`
for the current time and `newId` for the AUTOINCREMENT id. -/
def uploadHandler (req : UploadRequest) (editToken : String) (now newId : Nat) : UploadOutcome :=
  match req.user with
  | none => ⟨401, [], false, none⟩
  | some u =>
    let submitted := req.file.toList ++ req.thumbnail.toList
    if !(submitted.all fileFilter) then ⟨400, [], false, none⟩
    else match req.file with
    | none => ⟨400, [], false, none⟩
    | some mainFile =>
      let uploaderName :=
        let base := if u.username == "" then "Unknown" else u.username
        let t := jsSlice 80 (jsTrim base)
        if t == "" then "Unknown" else t
      if u.discordId == "" then ⟨401, [], false, none⟩
      else
        let type := detectType mainFile.mimetype
        if type == "unknown" then ⟨400, [], false, none⟩
        else if (match req.thumbnail with
                 | some t => !(detectType t.mimetype == "image")
                 | none => false) then ⟨400, [], false, none⟩
        else
          let format := formatFor type req.format
          let publishNow := req.publish == some "true" || req.publish == some "on"
          let title := jsSlice 200 (jsTrim (req.title.getD ""))
          let description := jsSlice 2000 (jsTrim (req.description.getD ""))
          let uploads := mainFile.filename ::
            (match req.thumbnail with | some t => [t.filename] | none => [])
          let post : Post :=
            { id := newId
              filename := "/uploads/" ++ mainFile.filename
              type := type
              title := title
              description := description
              uploaderDiscordId := u.discordId
              uploaderName := uploaderName
              status := if publishNow then "published" else "draft"
              editToken := editToken
              createdAt := now
              format := format }
          ⟨201, uploads, true, some post⟩

/-! ### `GET /api/post/:id`, toggles, comments, edit -/

/-- `GET /api/post/:id`: `none` is the 404 response; `some (row, canEdit)` is
the 200 response (the JSON echoes the row plus `canEdit = tokenMatches`).
JavaScript truthiness makes an empty string behave like an absent value in
`token && token === row.editToken` and in the `isOwner` conjunction. -/
def postDetailHandler (s : DB) (id : Nat) (token : Option String)
    (user : Option SessionUser) : Option (Post × Bool) :=
  match getPost s id with
  | none => none
  | some row =>
    let tokenMatches := match token with
      | some t => !(t == "") && t == row.editToken
      | none => false
    let isPublished := row.status == "published"
    let isOwner := match user with
      | some u => !(u.discordId == "") && !(row.uploaderDiscordId == "") &&
          u.discordId == row.uploaderDiscordId
      | none => false
    let canSeeDraft := tokenMatches || isOwner
    if !isPublished && !canSeeDraft then none
    else some (row, tokenMatches)

/-- `POST /api/post/:id/like`: 404 (`none`) unless the post exists and is
published; otherwise toggle the requester's like and answer
`{ likes, liked }`. -/
def likeEndpointHandler (s : DB) (id userId now : Nat) : DB × Option (Nat × Bool) :=
  match getPost s id with
  | none => (s, none)
  | some row =>
    if !(row.status == "published") then (s, none)
    else
      let alreadyLiked := hasUserLiked s id userId
      let r := setLike s id userId (!alreadyLiked) now
      (r.1, some (r.2, !alreadyLiked))

/-- `POST /api/post/:id/watchlater`: 404 unless the post exists and is
published; otherwise toggle the watch-later entry and answer
`{ watchLater }`. -/
def watchLaterEndpointHandler (s : DB) (id userId now : Nat) : DB × Option Bool :=
  match getPost s id with
  | none => (s, none)
  | some row =>
    if !(row.status == "published") then (s, none)
    else
      let has := hasWatchLater s id userId
      let r := setWatchLater s id userId (!has) now
      (r.1, some r.2)

/-- `SELECT COUNT(*) AS count FROM follows WHERE followingDiscordId = ?`. -/
def followerCount (s : DB) (followingDiscordId : String) : Nat :=
  (s.follows.filter fun r => r.followingDiscordId == followingDiscordId).length

/-- `getUserByDiscordId` from `database.js`. -/
def getUserByDiscordId (s : DB) (discordId : String) : Option UserRow :=
  s.users.find? fun u => u.discordId == discordId

/-- `upsertUser({discordId, username, avatar})`: `INSERT ... ON
CONFLICT(discordId) DO UPDATE SET username, avatar, lastSeenAt`. -/
def upsertUser (s : DB) (discordId username : String) (avatar : Option String)
    (newId : Nat) : DB :=
  match getUserByDiscordId s discordId with
  | some _ =>
    { s with users := s.users.map fun u =>
        if u.discordId == discordId then { u with username := username, avatar := avatar }
        else u }
  | none =>
    { s with users := s.users ++ [⟨newId, discordId, username, avatar, false, false, false⟩] }

/-- `POST /api/user/:discordId/follow`: 400 (`none`) on an empty target or a
self-follow; otherwise upsert the target user if missing, set the follow row
to `req.body.follow` when that is a boolean and to the negation of the
current state otherwise, and answer `{ following, followerCount }`. -/
def followEndpointHandler (s : DB) (user : SessionUser) (targetDiscordId : String)
    (follow : Option Bool) (bodyUsername bodyAvatar : Option String)
    (now newUserId : Nat) : DB × Option (Bool × Nat) :=
  if targetDiscordId == "" then (s, none)
  else if user.discordId == targetDiscordId then (s, none)
  else
    let s1 := match getUserByDiscordId s targetDiscordId with
      | some _ => s
      | none =>
        let safeName :=
          let b := jsSlice 80 (bodyUsername.getD "Unknown")
          if b == "" then "Unknown" else b
        upsertUser s targetDiscordId safeName bodyAvatar newUserId
    let current := hasFollow s1 user.id targetDiscordId
    let desired := follow.getD (!current)
    let r := setFollow s1 user.id targetDiscordId desired now
    (r.1, some (r.2, followerCount r.1 targetDiscordId))

/-- `POST /api/post/:id/comment`: trim and truncate the text to 800
characters, reject (400) when that leaves nothing, reject (404) when the
post is missing or unpublished, otherwise insert the comment and answer 201
with the stored comment. -/
def commentHandler (s : DB) (id userId : Nat) (text : String) (now newId : Nat) :
    DB × Nat × Option CommentRow :=
  let trimmedText := jsSlice 800 (jsTrim text)
  if trimmedText == "" then (s, 400, none)
  else match getPost s id with
  | none => (s, 404, none)
  | some row =>
    if !(row.status == "published") then (s, 404, none)
    else
      let r := insertComment s id userId trimmedText now newId
      (r.1, 201, some ⟨r.2, id, userId, trimmedText, now⟩)

/-- `POST /api/post/:id/edit`: 404 when the post is missing, 403 unless the
token matches or the requester owns the post, otherwise store the trimmed
and truncated title/description and publish the post (200). -/
def editHandler (s : DB) (id : Nat) (token : Option String)
    (title description : String) (user : Option SessionUser) : DB × Nat :=
  match getPost s id with
  | none => (s, 404)
  | some row =>
    let isOwner := match user with
      | some u => !(u.discordId == "") && !(row.uploaderDiscordId == "") &&
          u.discordId == row.uploaderDiscordId
      | none => false
    let tokenMatches := match token with
      | some t => !(t == "") && t == row.editToken
      | none => false
    if !tokenMatches && !isOwner then (s, 403)
    else
      let trimmedTitle := jsSlice 200 (jsTrim title)
      let trimmedDescription := jsSlice 2000 (jsTrim description)
      (publishPost s id trimmedTitle trimmedDescription, 200)

/-! ### Invariants derived from the UNIQUE constraints -/

/-- UNIQUE(postId, userId) on `likes`: no two rows share the pair. -/
def likesUnique (s : DB) : Prop :=
  s.likes.Pairwise fun a b => ¬(a.postId = b.postId ∧ a.userId = b.userId)

/-- UNIQUE(postId, userId) on `history`. -/
def historyUnique (s : DB) : Prop :=
  s.history.Pairwise fun a b => ¬(a.postId = b.postId ∧ a.userId = b.userId)

/-- UNIQUE(postId, userId) on `watchlist`. -/
def watchUnique (s : DB) : Prop :=
  s.watchlist.Pairwise fun a b => ¬(a.postId = b.postId ∧ a.userId = b.userId)

/-- UNIQUE(followerId, followingDiscordId) on `follows`. -/
def followsUnique (s : DB) : Prop :=
  s.follows.Pairwise fun a b =>
    ¬(a.followerId = b.followerId ∧ a.followingDiscordId = b.followingDiscordId)

/-- Number of distinct users with a like row for the post (`COUNT(DISTINCT
userId)` over the rows matching the post). -/
def distinctLikers (s : DB) (postId : Nat) : Nat :=
  (((s.likes.filter fun r => r.postId == postId).map fun r => r.userId).dedup).length

instance (s : DB) : Decidable (likesUnique s) := by
  unfold likesUnique; exact inferInstance

instance (s : DB) : Decidable (historyUnique s) := by
  unfold historyUnique; exact inferInstance

instance (s : DB) : Decidable (watchUnique s) := by
  unfold watchUnique; exact inferInstance

instance (s : DB) : Decidable (followsUnique s) := by
  unfold followsUnique; exact inferInstance

/-! ### Concrete fixtures for the witnesses -/

/-- Sample store: two published posts (ids 1, 2), one draft (id 3), one like
on post 2 by user 4, and one user row. -/
def sampleDB : DB :=
  { users := [⟨4, "d4", "bob", none, false, false, false⟩]
    posts :=
      [⟨1, "f", "video", "t", "d", "du", "u", "published", "tok1", 0, "long"⟩,
       ⟨2, "g", "video", "t2", "d2", "du", "u", "published", "tok2", 5, "long"⟩,
       ⟨3, "h", "video", "t3", "d3", "du", "u", "draft", "tk3", 9, "long"⟩]
    likes := [⟨2, 4, 0⟩]
    comments := []
    history := []
    watchlist := []
    follows := [] }

/-- The draft post of `sampleDB`. -/
def draftSample : Post :=
  ⟨3, "h", "video", "t3", "d3", "du", "u", "draft", "tk3", 9, "long"⟩

/-! ### Claims -/

/-- C1: a post with status 'draft' never appears in the results of the
public listing (`listPublished`), search (`searchPosts`) or trending
(`listTrending`) operations — none of which consults a viewer, so this holds
for every viewer, authenticated or not — and those operations return only
posts whose status is 'published'. -/
theorem draft_invisible_publicly (s : DB) (q : String) (p : Post)
    (h : p.status = "draft") :
    (p ∉ listPublished s ∧ p ∉ searchPosts s q ∧ p ∉ listTrending s) ∧
    (∀ r : Post, (r ∈ listPublished s ∨ r ∈ searchPosts s q ∨ r ∈ listTrending s) →
      r.status = "published") := by
  have key : ∀ r : Post,
      (r ∈ listPublished s ∨ r ∈ searchPosts s q ∨ r ∈ listTrending s) →
      r.status = "published" := by
    intro r hr
    rcases hr with hr | hr | hr
    · have h1 := List.mem_mergeSort.mp hr
      have h2 := List.of_mem_filter h1
      simpa using h2
    · have h1 := List.mem_mergeSort.mp (List.mem_of_mem_take hr)
      have h2 := List.of_mem_filter h1
      simp only [Bool.and_eq_true, beq_iff_eq] at h2
      exact h2.1
    · have h1 := List.mem_mergeSort.mp (List.mem_of_mem_take hr)
      have h2 := List.of_mem_filter h1
      simpa using h2
  refine ⟨⟨?_, ?_, ?_⟩, key⟩ <;> intro hmem
  · exact absurd (key p (Or.inl hmem)) (by simp [h])
  · exact absurd (key p (Or.inr (Or.inl hmem))) (by simp [h])
  · exact absurd (key p (Or.inr (Or.inr hmem))) (by simp [h])

/-- C1 witness: the concrete draft post of `sampleDB` appears in none of the
three public feeds. -/
theorem draft_invisible_publicly_witness :
    draftSample ∉ listPublished sampleDB ∧ draftSample ∉ searchPosts sampleDB "t" ∧
      draftSample ∉ listTrending sampleDB :=
  (draft_invisible_publicly sampleDB "t" draftSample rfl).1

/-- C7: `listTrending` returns only published posts, ordered by like count
descending with ties broken by creation time descending: whenever one post
precedes another in the result, it has strictly more likes, or the same
number of likes and a creation time that is no earlier. -/
theorem trending_ranking (s : DB) :
    (∀ r ∈ listTrending s, r.status = "published") ∧
    (listTrending s).Pairwise fun a b =>
      postLikes s b < postLikes s a ∨
        (postLikes s a = postLikes s b ∧ b.createdAt ≤ a.createdAt) := by
  constructor
  · intro r hr
    have h1 := List.mem_mergeSort.mp (List.mem_of_mem_take hr)
    have h2 := List.of_mem_filter h1
    simpa using h2
  · have htrans : ∀ a b c : Post, byTrending s a b = true → byTrending s b c = true →
        byTrending s a c = true := by
      intro a b c hab hbc
      simp only [byTrending, Bool.or_eq_true, Bool.and_eq_true, decide_eq_true_eq,
        beq_iff_eq] at hab hbc ⊢
      omega
    have htot : ∀ a b : Post, (byTrending s a b || byTrending s b a) = true := by
      intro a b
      simp only [byTrending, Bool.or_eq_true, Bool.and_eq_true, decide_eq_true_eq,
        beq_iff_eq]
      omega
    have hp := List.sorted_mergeSort htrans htot
      (s.posts.filter fun p => p.status == "published")
    have hq := List.Pairwise.sublist (List.take_sublist 100 _) hp
    exact hq.imp fun hab => by
      simpa only [byTrending, Bool.or_eq_true, Bool.and_eq_true, decide_eq_true_eq,
        beq_iff_eq] using hab

/-! ### Toggle round-trip machinery (C4)

The like, watch-later and follow toggles all have the same shape: look up the
row by its key, then insert-if-absent or delete-by-key.  `toggleStep`
abbreviates that shape for the proofs below (`q` tests the toggled key, `x`
is the row inserted when absent). -/

/-- Proof abbreviation: one insert-if-absent / delete-by-key toggle step. -/
def toggleStep {α : Type} (l : List α) (q : α → Bool) (x : α) : List α :=
  if l.any q then l.filter fun r => !(q r) else l ++ [x]

theorem any_filter_not_self {α : Type} (l : List α) (q : α → Bool) :
    (l.filter fun r => !(q r)).any q = false := by
  simp [List.any_filter]

/-- Two toggle steps on the same key leave every key-membership question
unchanged: `m` observes an arbitrary key, which either coincides with the
toggled key (`m = q` pointwise) or is disjoint from it. -/
theorem toggleStep_twice_any {α : Type} (l : List α) (q m : α → Bool) (x1 x2 : α)
    (hx1 : q x1 = true) (hx2 : q x2 = true)
    (hcase : (∀ r, m r = q r) ∨ ∀ r, m r = true → q r = false) :
    (toggleStep (toggleStep l q x1) q x2).any m = l.any m := by
  by_cases h : l.any q = true
  · have hstep1 : toggleStep l q x1 = l.filter fun r => !(q r) := by
      simp [toggleStep, h]
    have hstep2 : toggleStep (toggleStep l q x1) q x2
        = (l.filter fun r => !(q r)) ++ [x2] := by
      rw [hstep1]; simp [toggleStep, any_filter_not_self]
    rw [hstep2]
    rcases hcase with hc | hc
    · rw [show m = q from funext hc]
      simp [List.any_append, any_filter_not_self, hx2, h]
    · have hmx2 : m x2 = false := by
        cases hm : m x2 with
        | false => rfl
        | true => exact absurd (hc x2 hm) (by simp [hx2])
      have hfun : (fun r => !(q r) && m r) = fun r => m r := by
        funext r
        cases hm : m r with
        | false => simp
        | true => simp [hc r hm]
      simp [List.any_append, List.any_filter, hfun, hmx2]
  · have h' : l.any q = false := by simpa using h
    have hstep1 : toggleStep l q x1 = l ++ [x1] := by
      simp [toggleStep, h']
    have hany : (l ++ [x1]).any q = true := by
      simp [List.any_append, hx1]
    have hstep2 : toggleStep (toggleStep l q x1) q x2
        = (l ++ [x1]).filter fun r => !(q r) := by
      rw [hstep1]; simp [toggleStep, hany]
    have hfx1 : (([x1]).filter fun r => !(q r)) = [] := by
      simp [hx1]
    rw [hstep2, List.filter_append, hfx1, List.append_nil]
    rcases hcase with hc | hc
    · rw [show m = q from funext hc]
      rw [any_filter_not_self, h']
    · have hfun : (fun r => !(q r) && m r) = fun r => m r := by
        funext r
        cases hm : m r with
        | false => simp
        | true => simp [hc r hm]
      simp [List.any_filter, hfun]


theorem insertLike_posts (s : DB) (id uid n : Nat) : (insertLike s id uid n).posts = s.posts := by
  unfold insertLike
  split <;> rfl

theorem setLike_posts (s : DB) (id uid : Nat) (b : Bool) (n : Nat) :
    ((setLike s id uid b n).1).posts = s.posts := by
  cases b
  · rfl
  · exact insertLike_posts s id uid n

theorem setLike_likes_toggle (s : DB) (id uid n : Nat) :
    ((setLike s id uid (!(hasUserLiked s id uid)) n).1).likes
      = toggleStep s.likes (fun r => r.postId == id && r.userId == uid) ⟨id, uid, n⟩ := by
  unfold toggleStep setLike insertLike deleteLike hasUserLiked hasLike
  cases h : s.likes.any fun r => r.postId == id && r.userId == uid
  · simp only [h, Bool.not_false, if_true, if_false]
    simp [h]
  · simp only [h, Bool.not_true, if_true, if_false]
    simp [h]

theorem getPost_eq_of_posts_eq (s s' : DB) (h : s'.posts = s.posts) (id : Nat) :
    getPost s' id = getPost s id := by
  simp [getPost, h]

theorem likeEndpointHandler_state (s : DB) (id uid n : Nat) (row : Post)
    (hrow : getPost s id = some row) (hpub : row.status = "published") :
    (likeEndpointHandler s id uid n).1
      = (setLike s id uid (!(hasUserLiked s id uid)) n).1 := by
  simp [likeEndpointHandler, hrow, hpub]

theorem addWatch_posts (s : DB) (id uid n : Nat) : (addWatch s id uid n).posts = s.posts := by
  unfold addWatch
  split <;> rfl

theorem setWatchLater_posts (s : DB) (id uid : Nat) (b : Bool) (n : Nat) :
    ((setWatchLater s id uid b n).1).posts = s.posts := by
  cases b
  · rfl
  · exact addWatch_posts s id uid n

theorem setWatchLater_watchlist_toggle (s : DB) (id uid n : Nat) :
    ((setWatchLater s id uid (!(hasWatchLater s id uid)) n).1).watchlist
      = toggleStep s.watchlist (fun r => r.postId == id && r.userId == uid) ⟨id, uid, n⟩ := by
  unfold toggleStep setWatchLater addWatch removeWatch hasWatchLater hasWatch
  cases h : s.watchlist.any fun r => r.postId == id && r.userId == uid
  · simp only [h, Bool.not_false, if_true, if_false]
    simp [h]
  · simp only [h, Bool.not_true, if_true, if_false]
    simp [h]

theorem watchLaterEndpointHandler_state (s : DB) (id uid n : Nat) (row : Post)
    (hrow : getPost s id = some row) (hpub : row.status = "published") :
    (watchLaterEndpointHandler s id uid n).1
      = (setWatchLater s id uid (!(hasWatchLater s id uid)) n).1 := by
  simp [watchLaterEndpointHandler, hrow, hpub]

theorem upsertUser_follows (s : DB) (d u : String) (a : Option String) (nid : Nat) :
    (upsertUser s d u a nid).follows = s.follows := by
  unfold upsertUser
  split <;> rfl

theorem followEndpointHandler_follows (s : DB) (user : SessionUser) (target : String)
    (bu ba : Option String) (n nid : Nat)
    (htar : target ≠ "") (hself : user.discordId ≠ target) :
    ((followEndpointHandler s user target none bu ba n nid).1).follows
      = toggleStep s.follows
          (fun r => r.followerId == user.id && r.followingDiscordId == target)
          ⟨user.id, target, n⟩ := by
  have h1 : (target == "") = false := by simpa using htar
  have h2 : (user.discordId == target) = false := by simpa using hself
  unfold followEndpointHandler
  rw [h1, h2]
  simp only [Bool.false_eq_true, if_false]
  set s1 := (match getUserByDiscordId s target with
      | some _ => s
      | none =>
        upsertUser s target
          (let b := jsSlice 80 (bu.getD "Unknown"); if b == "" then "Unknown" else b)
          ba nid) with hs1
  have hfol : s1.follows = s.follows := by
    rw [hs1]
    cases hu : getUserByDiscordId s target
    · exact upsertUser_follows ..
    · rfl
  unfold toggleStep setFollow followInsert followDelete hasFollow
  rw [hfol]
  cases h : s.follows.any fun r => r.followerId == user.id && r.followingDiscordId == target
  · simp only [Option.getD, h, Bool.not_false, if_true, if_false]
    simp [hfol, h]
  · simp only [Option.getD, h, Bool.not_true, if_true, if_false]
    simp [hfol, h]

/-- First published post of `sampleDB`. -/
def firstSample : Post :=
  ⟨1, "f", "video", "t", "d", "du", "u", "published", "tok1", 0, "long"⟩

/-- C4: for a published post, running the like toggle endpoint twice or the
watch-later toggle endpoint twice, and for any valid target, running the
follow toggle endpoint twice (with no explicit `follow` value in the body),
returns the respective relation — viewed as the set of (user, target) pairs —
to exactly its original state: these relations behave as idempotent sets,
not counters. -/
theorem toggles_roundtrip (s : DB) (id userId now1 now2 : Nat) (row : Post)
    (hrow : getPost s id = some row) (hpub : row.status = "published")
    (user : SessionUser) (target : String) (bu ba : Option String) (nid1 nid2 : Nat)
    (htar : target ≠ "") (hself : user.discordId ≠ target) :
    (∀ p u, hasLike ((likeEndpointHandler ((likeEndpointHandler s id userId now1).1)
        id userId now2).1) p u = hasLike s p u) ∧
    (∀ p u, hasWatch ((watchLaterEndpointHandler ((watchLaterEndpointHandler s id userId now1).1)
        id userId now2).1) p u = hasWatch s p u) ∧
    (∀ f t, hasFollow ((followEndpointHandler ((followEndpointHandler s user target none bu ba
        now1 nid1).1) user target none bu ba now2 nid2).1) f t = hasFollow s f t) := by
  refine ⟨?_, ?_, ?_⟩
  · intro p u
    have hs1 : (likeEndpointHandler s id userId now1).1
        = (setLike s id userId (!(hasUserLiked s id userId)) now1).1 :=
      likeEndpointHandler_state s id userId now1 row hrow hpub
    have hl1 : ((likeEndpointHandler s id userId now1).1).likes
        = toggleStep s.likes (fun r => r.postId == id && r.userId == userId)
            ⟨id, userId, now1⟩ := by
      rw [hs1]; exact setLike_likes_toggle s id userId now1
    have hp1 : ((likeEndpointHandler s id userId now1).1).posts = s.posts := by
      rw [hs1]; exact setLike_posts s id userId _ now1
    have hrow1 : getPost ((likeEndpointHandler s id userId now1).1) id = some row := by
      rw [getPost_eq_of_posts_eq s _ hp1]; exact hrow
    have hs2 : (likeEndpointHandler ((likeEndpointHandler s id userId now1).1) id userId now2).1
        = (setLike ((likeEndpointHandler s id userId now1).1) id userId
            (!(hasUserLiked ((likeEndpointHandler s id userId now1).1) id userId)) now2).1 :=
      likeEndpointHandler_state _ id userId now2 row hrow1 hpub
    have hl2 : ((likeEndpointHandler ((likeEndpointHandler s id userId now1).1)
          id userId now2).1).likes
        = toggleStep (toggleStep s.likes (fun r => r.postId == id && r.userId == userId)
            ⟨id, userId, now1⟩) (fun r => r.postId == id && r.userId == userId)
            ⟨id, userId, now2⟩ := by
      rw [hs2, setLike_likes_toggle, hl1]
    unfold hasLike
    rw [hl2]
    apply toggleStep_twice_any
    · simp
    · simp
    · by_cases hpu : p = id ∧ u = userId
      · left; intro r; rw [hpu.1, hpu.2]
      · right; intro r hm
        simp only [Bool.and_eq_true, beq_iff_eq] at hm
        rw [Bool.eq_false_iff]
        intro hcontra
        simp only [Bool.and_eq_true, beq_iff_eq] at hcontra
        exact hpu ⟨by omega, by omega⟩
  · intro p u
    have hs1 : (watchLaterEndpointHandler s id userId now1).1
        = (setWatchLater s id userId (!(hasWatchLater s id userId)) now1).1 :=
      watchLaterEndpointHandler_state s id userId now1 row hrow hpub
    have hl1 : ((watchLaterEndpointHandler s id userId now1).1).watchlist
        = toggleStep s.watchlist (fun r => r.postId == id && r.userId == userId)
            ⟨id, userId, now1⟩ := by
      rw [hs1]; exact setWatchLater_watchlist_toggle s id userId now1
    have hp1 : ((watchLaterEndpointHandler s id userId now1).1).posts = s.posts := by
      rw [hs1]; exact setWatchLater_posts s id userId _ now1
    have hrow1 : getPost ((watchLaterEndpointHandler s id userId now1).1) id = some row := by
      rw [getPost_eq_of_posts_eq s _ hp1]; exact hrow
    have hs2 : (watchLaterEndpointHandler ((watchLaterEndpointHandler s id userId now1).1)
          id userId now2).1
        = (setWatchLater ((watchLaterEndpointHandler s id userId now1).1) id userId
            (!(hasWatchLater ((watchLaterEndpointHandler s id userId now1).1) id userId)) now2).1 :=
      watchLaterEndpointHandler_state _ id userId now2 row hrow1 hpub
    have hl2 : ((watchLaterEndpointHandler ((watchLaterEndpointHandler s id userId now1).1)
          id userId now2).1).watchlist
        = toggleStep (toggleStep s.watchlist (fun r => r.postId == id && r.userId == userId)
            ⟨id, userId, now1⟩) (fun r => r.postId == id && r.userId == userId)
            ⟨id, userId, now2⟩ := by
      rw [hs2, setWatchLater_watchlist_toggle, hl1]
    unfold hasWatch
    rw [hl2]
    apply toggleStep_twice_any
    · simp
    · simp
    · by_cases hpu : p = id ∧ u = userId
      · left; intro r; rw [hpu.1, hpu.2]
      · right; intro r hm
        simp only [Bool.and_eq_true, beq_iff_eq] at hm
        rw [Bool.eq_false_iff]
        intro hcontra
        simp only [Bool.and_eq_true, beq_iff_eq] at hcontra
        exact hpu ⟨by omega, by omega⟩
  · intro f t
    have hl1 : ((followEndpointHandler s user target none bu ba now1 nid1).1).follows
        = toggleStep s.follows
            (fun r => r.followerId == user.id && r.followingDiscordId == target)
            ⟨user.id, target, now1⟩ :=
      followEndpointHandler_follows s user target bu ba now1 nid1 htar hself
    have hl2 : ((followEndpointHandler ((followEndpointHandler s user target none bu ba
          now1 nid1).1) user target none bu ba now2 nid2).1).follows
        = toggleStep (toggleStep s.follows
            (fun r => r.followerId == user.id && r.followingDiscordId == target)
            ⟨user.id, target, now1⟩)
            (fun r => r.followerId == user.id && r.followingDiscordId == target)
            ⟨user.id, target, now2⟩ := by
      rw [followEndpointHandler_follows _ user target bu ba now2 nid2 htar hself, hl1]
    unfold hasFollow
    rw [hl2]
    apply toggleStep_twice_any
    · simp
    · simp
    · by_cases hft : f = user.id ∧ t = target
      · left; intro r; rw [hft.1, hft.2]
      · right; intro r hm
        simp only [Bool.and_eq_true, beq_iff_eq] at hm
        rw [Bool.eq_false_iff]
        intro hcontra
        simp only [Bool.and_eq_true, beq_iff_eq] at hcontra
        refine hft ⟨by omega, ?_⟩
        rw [← hm.2]; exact hcontra.2

/-- C4 witness: the round trip at a concrete published post, user and follow
target of `sampleDB`. -/
theorem toggles_roundtrip_witness :
    hasLike ((likeEndpointHandler ((likeEndpointHandler sampleDB 1 7 10).1)
        1 7 11).1) 1 7 = hasLike sampleDB 1 7 ∧
    hasWatch ((watchLaterEndpointHandler ((watchLaterEndpointHandler sampleDB 1 7 10).1)
        1 7 11).1) 1 7 = hasWatch sampleDB 1 7 ∧
    hasFollow ((followEndpointHandler ((followEndpointHandler sampleDB
        ⟨4, "d4", "bob", none, false, false⟩ "du" none none none 10 77).1)
        ⟨4, "d4", "bob", none, false, false⟩ "du" none none none 11 78).1) 4 "du"
        = hasFollow sampleDB 4 "du" :=
  (fun h => ⟨h.1 1 7, h.2.1 1 7, h.2.2 4 "du"⟩)
    (toggles_roundtrip sampleDB 1 7 10 11 firstSample rfl rfl
      ⟨4, "d4", "bob", none, false, false⟩ "du" none none 77 78 (by decide) (by decide))

theorem likesUnique_insertLike (s : DB) (pid uid n : Nat) (h : likesUnique s) :
    likesUnique (insertLike s pid uid n) := by
  unfold insertLike
  split
  · exact h
  · rename_i hno
    unfold likesUnique at *
    rw [List.pairwise_append]
    refine ⟨h, by simp, ?_⟩
    intro a ha b hb
    simp only [List.mem_singleton] at hb
    subst hb
    rintro ⟨e1, e2⟩
    apply hno
    unfold hasLike
    rw [List.any_eq_true]
    exact ⟨a, ha, by simp [e1, e2]⟩

theorem likesUnique_setLike (s : DB) (pid uid : Nat) (b : Bool) (n : Nat)
    (h : likesUnique s) : likesUnique ((setLike s pid uid b n).1) := by
  cases b
  · exact List.Pairwise.filter _ h
  · exact likesUnique_insertLike s pid uid n h

theorem countLikes_eq_distinctLikers (s : DB) (pid : Nat) (h : likesUnique s) :
    countLikes s pid = distinctLikers s pid := by
  unfold countLikes distinctLikers
  have h1 : (s.likes.filter fun r => r.postId == pid).Pairwise
      (fun a b => ¬(a.postId = b.postId ∧ a.userId = b.userId)) :=
    List.Pairwise.filter _ h
  have h2 : (s.likes.filter fun r => r.postId == pid).Pairwise
      (fun a b => a.userId ≠ b.userId) := by
    refine List.Pairwise.imp_of_mem ?_ h1
    intro a b ha hb hR he
    have hpa : a.postId = pid := by
      have := List.of_mem_filter ha; simpa using this
    have hpb : b.postId = pid := by
      have := List.of_mem_filter hb; simpa using this
    exact hR ⟨hpa.trans hpb.symm, he⟩
  have h3 : ((s.likes.filter fun r => r.postId == pid).map fun r => r.userId).Nodup :=
    List.Pairwise.map _ (fun a b hab => hab) h2
  rw [List.Nodup.dedup h3, List.length_map]

/-- C3: for a published post and an authenticated user, the `likes` value
returned by the like-toggle endpoint (`POST /api/post/:id/like`, which calls
`setLike`) equals the number of distinct users with a like row for that post
after the toggle.  Duplicate likes by the same user are impossible: the
UNIQUE(postId, userId) constraint is the `likesUnique` invariant, which
`setLike` preserves (`likesUnique_setLike`). -/
theorem like_toggle_count_distinct (s : DB) (id userId now : Nat) (row : Post)
    (hrow : getPost s id = some row) (hpub : row.status = "published")
    (hinv : likesUnique s) :
    ((likeEndpointHandler s id userId now).2).map Prod.fst
      = some (distinctLikers ((likeEndpointHandler s id userId now).1) id) := by
  have hstate : (likeEndpointHandler s id userId now).1
      = (setLike s id userId (!(hasUserLiked s id userId)) now).1 :=
    likeEndpointHandler_state s id userId now row hrow hpub
  have hval : (likeEndpointHandler s id userId now).2
      = some ((setLike s id userId (!(hasUserLiked s id userId)) now).2,
          !(hasUserLiked s id userId)) := by
    simp [likeEndpointHandler, hrow, hpub]
  have hsnd : (setLike s id userId (!(hasUserLiked s id userId)) now).2
      = countLikes ((setLike s id userId (!(hasUserLiked s id userId)) now).1) id := rfl
  rw [hval, hstate]
  exact congrArg some (hsnd.trans
    (countLikes_eq_distinctLikers _ id (likesUnique_setLike s id userId _ now hinv)))

/-- C3 witness: the toggle at the concrete published post 1 of `sampleDB` by
user 7. -/
theorem like_toggle_count_distinct_witness :
    ((likeEndpointHandler sampleDB 1 7 10).2).map Prod.fst
      = some (distinctLikers ((likeEndpointHandler sampleDB 1 7 10).1) 1) :=
  like_toggle_count_distinct sampleDB 1 7 10 firstSample rfl rfl (by decide)

/-- C2: for a post with status 'draft', the direct lookup
(`GET /api/post/:id`) returns the post iff the supplied token equals the
post's stored edit token, or the requesting user's discordId equals the
post's uploaderDiscordId; in every other case it responds 404.  The stored
edit token is a non-empty hex string and the uploader id of a stored post is
non-empty (the upload handler requires a truthy `discordId`), which the two
non-emptiness hypotheses record. -/
theorem draft_lookup_access (s : DB) (id : Nat) (token : Option String)
    (user : Option SessionUser) (row : Post)
    (hrow : getPost s id = some row) (hdraft : row.status = "draft")
    (htok : row.editToken ≠ "") (howner : row.uploaderDiscordId ≠ "") :
    (postDetailHandler s id token user).isSome ↔
      token = some row.editToken ∨
        ∃ u, user = some u ∧ u.discordId = row.uploaderDiscordId := by
  have hstat : (row.status == "published") = false := by simp [hdraft]
  have htm : (match token with
      | some t => !(t == "") && t == row.editToken
      | none => false) = true ↔ token = some row.editToken := by
    cases token with
    | none => simp
    | some t =>
      simp only [Bool.and_eq_true, Bool.not_eq_true', beq_iff_eq, beq_eq_false_iff_ne,
        Option.some_inj]
      constructor
      · rintro ⟨_, h2⟩; exact h2
      · rintro h2; exact ⟨h2 ▸ htok, h2⟩
  have hio : (match user with
      | some u => !(u.discordId == "") && !(row.uploaderDiscordId == "") &&
          u.discordId == row.uploaderDiscordId
      | none => false) = true ↔
      ∃ u, user = some u ∧ u.discordId = row.uploaderDiscordId := by
    cases user with
    | none => simp
    | some u =>
      simp only [Bool.and_eq_true, Bool.not_eq_true', beq_iff_eq, beq_eq_false_iff_ne,
        Option.some_inj]
      constructor
      · rintro ⟨⟨_, _⟩, h3⟩; exact ⟨u, rfl, h3⟩
      · rintro ⟨u', hu', h3⟩
        cases hu'
        exact ⟨⟨h3 ▸ howner, howner⟩, h3⟩
  unfold postDetailHandler
  rw [hrow]
  simp only [hstat, Bool.not_false, Bool.true_and]
  cases h1 : (match token with
      | some t => !(t == "") && t == row.editToken
      | none => false) with
  | true =>
    simp only [Bool.true_or, Bool.not_true, Bool.false_eq_true, if_false, Option.isSome_some,
      true_iff]
    exact Or.inl (htm.mp h1)
  | false =>
    cases h2 : (match user with
        | some u => !(u.discordId == "") && !(row.uploaderDiscordId == "") &&
            u.discordId == row.uploaderDiscordId
        | none => false) with
    | true =>
      simp only [Bool.or_true, Bool.not_true, Bool.false_eq_true, if_false, Option.isSome_some,
        true_iff]
      exact Or.inr (hio.mp h2)
    | false =>
      simp only [Bool.or_false, Bool.not_false, if_true, Option.isSome_none,
        Bool.false_eq_true, false_iff]
      rintro (hc | hc)
      · rw [← htm] at hc; exact absurd h1 (by simp [hc])
      · rw [← hio] at hc; exact absurd h2 (by simp [hc])

/-- C2 witness: the concrete draft post 3 of `sampleDB`, looked up with its
edit token and anonymously. -/
theorem draft_lookup_access_witness :
    (postDetailHandler sampleDB 3 (some "tk3") none).isSome ↔
      some "tk3" = some draftSample.editToken ∨
        ∃ u, (none : Option SessionUser) = some u ∧
          u.discordId = draftSample.uploaderDiscordId :=
  draft_lookup_access sampleDB 3 (some "tk3") none draftSample rfl rfl
    (by decide) (by decide)

theorem uploadHandler_success (req : UploadRequest) (editToken : String) (now newId : Nat)
    (p : Post) (hp : (uploadHandler req editToken now newId).insertedPost = some p) :
    ∃ u mainFile, req.user = some u ∧ req.file = some mainFile ∧
      p.type = detectType mainFile.mimetype ∧
      p.format = formatFor (detectType mainFile.mimetype) req.format ∧
      p.title = jsSlice 200 (jsTrim (req.title.getD "")) ∧
      p.description = jsSlice 2000 (jsTrim (req.description.getD "")) ∧
      p.status = (if req.publish == some "true" || req.publish == some "on"
        then "published" else "draft") ∧
      p.editToken = editToken ∧ p.createdAt = now ∧ p.id = newId ∧
      p.uploaderDiscordId = u.discordId := by
  unfold uploadHandler at hp
  cases hu : req.user with
  | none => rw [hu] at hp; exact absurd hp (by simp)
  | some u =>
    rw [hu] at hp
    simp only [] at hp
    cases hfile : req.file with
    | none =>
      rw [hfile] at hp
      revert hp
      split <;> intro hp <;> exact absurd hp (by simp)
    | some mainFile =>
      rw [hfile] at hp
      cases hthumb : req.thumbnail with
      | none =>
        rw [hthumb] at hp
        simp only [Option.toList, List.singleton_append, List.all_cons, List.all_nil,
          Bool.and_true, Bool.false_eq_true, if_false] at hp
        cases hff : fileFilter mainFile with
        | false => rw [hff] at hp; exact absurd hp (by simp)
        | true =>
          rw [hff] at hp
          simp only [Bool.not_true, Bool.false_eq_true, if_false] at hp
          cases hdid : (u.discordId == "") with
          | true => rw [hdid] at hp; exact absurd hp (by simp)
          | false =>
            rw [hdid] at hp
            simp only [Bool.false_eq_true, if_false] at hp
            cases htyp : (detectType mainFile.mimetype == "unknown") with
            | true => rw [htyp] at hp; exact absurd hp (by simp)
            | false =>
              rw [htyp] at hp
              simp only [Bool.false_eq_true, if_false, Option.some_inj] at hp
              refine ⟨u, mainFile, rfl, rfl, ?_⟩
              subst hp
              exact ⟨rfl, rfl, rfl, rfl, rfl, rfl, rfl, rfl, rfl⟩
      | some tf =>
        rw [hthumb] at hp
        simp only [Option.toList, List.singleton_append, List.all_cons, List.all_nil,
          Bool.and_true] at hp
        cases hff : (fileFilter mainFile && fileFilter tf) with
        | false => rw [hff] at hp; exact absurd hp (by simp)
        | true =>
          rw [hff] at hp
          simp only [Bool.not_true, Bool.false_eq_true, if_false] at hp
          cases hdid : (u.discordId == "") with
          | true => rw [hdid] at hp; exact absurd hp (by simp)
          | false =>
            rw [hdid] at hp
            simp only [Bool.false_eq_true, if_false] at hp
            cases htyp : (detectType mainFile.mimetype == "unknown") with
            | true => rw [htyp] at hp; exact absurd hp (by simp)
            | false =>
              rw [htyp] at hp
              simp only [Bool.false_eq_true, if_false] at hp
              cases hti : (!(detectType tf.mimetype == "image")) with
              | true => rw [hti] at hp; exact absurd hp (by simp)
              | false =>
                rw [hti] at hp
                simp only [Bool.false_eq_true, if_false, Option.some_inj] at hp
                refine ⟨u, mainFile, rfl, rfl, ?_⟩
                subst hp
                exact ⟨rfl, rfl, rfl, rfl, rfl, rfl, rfl, rfl, rfl⟩

/-- Contains test for string allow-lists: membership failure gives
`List.contains = false`. -/
theorem contains_eq_false_of_notMem (l : List String) (a : String) (ha : a ∉ l) :
    l.contains a = false := by
  simpa using ha

/-- Upload request carrying a `.gif` file, whose extension and MIME type are
both outside the allow-lists. -/
def badUploadReq : UploadRequest :=
  ⟨some ⟨1, "d1", "alice", none, false, false⟩, some ⟨"c.gif", "image/gif", "f1"⟩,
    none, none, none, none, none⟩

/-- C6: an upload request whose file has an extension outside
{.jpg, .jpeg, .png, .webp, .mp4, .webm} or a MIME type outside
{image/jpeg, image/png, image/webp, video/mp4, video/webm} is rejected with
a 4xx error (400, or 401 when unauthenticated), and neither the storage
backend upload nor any database insert (`insertPost`, `upsertUser`) is
executed for that request. -/
theorem bad_upload_rejected (req : UploadRequest) (editToken : String) (now newId : Nat)
    (f : UploadFile) (hf : req.file = some f)
    (hbad : strToLower (extname f.originalname) ∉ ALLOWED_EXTENSIONS ∨
      f.mimetype ∉ ALLOWED_MIME) :
    ((uploadHandler req editToken now newId).status = 400 ∨
      (uploadHandler req editToken now newId).status = 401) ∧
    (uploadHandler req editToken now newId).storageUploads = [] ∧
    (uploadHandler req editToken now newId).userUpserted = false ∧
    (uploadHandler req editToken now newId).insertedPost = none := by
  have hff : fileFilter f = false := by
    show (ALLOWED_EXTENSIONS.contains (strToLower (extname f.originalname)) &&
      ALLOWED_MIME.contains f.mimetype) = false
    rcases hbad with hb | hb
    · rw [contains_eq_false_of_notMem _ _ hb, Bool.false_and]
    · rw [contains_eq_false_of_notMem _ _ hb, Bool.and_false]
  unfold uploadHandler
  cases hu : req.user with
  | none => exact ⟨Or.inr rfl, rfl, rfl, rfl⟩
  | some u =>
    simp only []
    rw [hf]
    simp only [Option.toList, List.singleton_append, List.all_cons, hff, Bool.false_and,
      Bool.not_false, if_true]
    simp

/-- C6 witness: the concrete `.gif` upload request is rejected with 400 and
performs no storage upload, no user upsert and no post insert. -/
theorem bad_upload_rejected_witness :
    ((uploadHandler badUploadReq "tok" 5 9).status = 400 ∨
      (uploadHandler badUploadReq "tok" 5 9).status = 401) ∧
    (uploadHandler badUploadReq "tok" 5 9).storageUploads = [] ∧
    (uploadHandler badUploadReq "tok" 5 9).userUpserted = false ∧
    (uploadHandler badUploadReq "tok" 5 9).insertedPost = none :=
  bad_upload_rejected badUploadReq "tok" 5 9 ⟨"c.gif", "image/gif", "f1"⟩ rfl
    (Or.inl (by decide))

/-- Upload request used by the C8 and C10 witnesses: a PNG image with
`format=long`, `publish=true`, and an untrimmed title. -/
def imageUploadReq : UploadRequest :=
  ⟨some ⟨1, "d1", "alice", none, false, false⟩, some ⟨"c.png", "image/png", "f1"⟩,
    none, some "long", some "true", some " My title ", some "desc"⟩

/-- The post `imageUploadReq` inserts (edit token "tok", time 5, id 9):
despite `format=long`, the stored format is 'photo'. -/
def imageUploadPost : Post :=
  ⟨9, "/uploads/f1", "image", "My title", "desc", "d1", "alice", "published", "tok", 5, "photo"⟩

/-- C8: in the later revision of the upload handler, an uploaded file whose
detected type is 'image' is stored with format 'photo' regardless of the
user-supplied format value; a file of type 'video' is stored with the
supplied value when it is 'short' or 'long', and with 'long' otherwise
(including when no value is supplied). -/
theorem upload_format_autodetect (req : UploadRequest) (editToken : String) (now newId : Nat)
    (f : UploadFile) (p : Post) (hf : req.file = some f)
    (hp : (uploadHandler req editToken now newId).insertedPost = some p) :
    (detectType f.mimetype = "image" → p.format = "photo") ∧
    (detectType f.mimetype = "video" →
      (req.format = some "short" → p.format = "short") ∧
      (req.format = some "long" → p.format = "long") ∧
      (∀ v, req.format = some v → v ≠ "short" → v ≠ "long" → p.format = "long") ∧
      (req.format = none → p.format = "long")) := by
  obtain ⟨u, mainFile, hu, hmf, _, hformat, -⟩ :=
    uploadHandler_success req editToken now newId p hp
  rw [hf] at hmf
  cases hmf
  constructor
  · intro himg
    rw [hformat, himg]
    rfl
  · intro hvid
    refine ⟨?_, ?_, ?_, ?_⟩
    · intro hq; rw [hformat, hvid, hq]; rfl
    · intro hq; rw [hformat, hvid, hq]; rfl
    · intro v hq hv1 hv2
      rw [hformat, hvid, hq]
      simp [formatFor, hv1, hv2]
    · intro hq; rw [hformat, hvid, hq]; rfl

/-- C8 witness: the concrete PNG upload with `format=long` is stored with
format 'photo'. -/
theorem upload_format_autodetect_witness :
    detectType "image/png" = "image" ∧ imageUploadPost.format = "photo" :=
  ⟨by decide,
    (upload_format_autodetect imageUploadReq "tok" 5 9 ⟨"c.png", "image/png", "f1"⟩
      imageUploadPost rfl (by decide)).1 (by decide)⟩

theorem jsSlice_length_le (n : Nat) (s : String) : (jsSlice n s).length ≤ n := by
  show (s.toList.take n).length ≤ n
  rw [List.length_take]
  exact min_le_left ..

theorem publishPost_text_of_mem (s : DB) (id : Nat) (title description : String)
    (q : Post) (hq : q ∈ (publishPost s id title description).posts) (hid : q.id = id) :
    q.title = title ∧ q.description = description := by
  unfold publishPost at hq
  simp only [List.mem_map] at hq
  obtain ⟨p, hp, hpq⟩ := hq
  by_cases h : (p.id == id) = true
  · rw [if_pos h] at hpq
    exact ⟨by rw [← hpq], by rw [← hpq]⟩
  · rw [if_neg h] at hpq
    subst hpq
    exact absurd (by simp [hid]) h

theorem commentHandler_success (s : DB) (id userId : Nat) (text : String)
    (now newId : Nat) (s' : DB) (st : Nat) (c : CommentRow)
    (hc : commentHandler s id userId text now newId = (s', st, some c)) :
    c.text = jsSlice 800 (jsTrim text) ∧ c.text ≠ "" := by
  unfold commentHandler at hc
  simp only [] at hc
  cases he : (jsSlice 800 (jsTrim text) == "") with
  | true => rw [he] at hc; simp at hc
  | false =>
    rw [he] at hc
    simp only [Bool.false_eq_true, if_false] at hc
    cases hg : getPost s id with
    | none => rw [hg] at hc; simp at hc
    | some row =>
      rw [hg] at hc
      simp only [] at hc
      cases hpub : (row.status == "published") with
      | false => rw [hpub] at hc; simp at hc
      | true =>
        rw [hpub] at hc
        simp only [Bool.not_true, Bool.false_eq_true, if_false, Prod.mk.injEq,
          Option.some_inj] at hc
        obtain ⟨-, -, hcc⟩ := hc
        subst hcc
        exact ⟨rfl, by simpa using he⟩

/-- Comment row stored by the C10 witness call. -/
def commentSample : CommentRow :=
  ⟨100, 1, 7, "a comment", 3⟩

/-- C10: stored text is trimmed and truncated — an inserted post carries the
supplied title trimmed of surrounding whitespace and truncated to at most
200 characters and the description trimmed and truncated to at most 2000; a
successful edit stores the same for the edited post; a stored comment text
is the supplied text trimmed and truncated to at most 800 characters and is
never empty. -/
theorem stored_text_sanitized :
    (∀ (req : UploadRequest) (editToken : String) (now newId : Nat) (p : Post),
      (uploadHandler req editToken now newId).insertedPost = some p →
        p.title = jsSlice 200 (jsTrim (req.title.getD "")) ∧
        p.description = jsSlice 2000 (jsTrim (req.description.getD "")) ∧
        p.title.length ≤ 200 ∧ p.description.length ≤ 2000) ∧
    (∀ (s : DB) (id : Nat) (token : Option String) (title description : String)
        (user : Option SessionUser) (q : Post),
      (editHandler s id token title description user).2 = 200 →
      q ∈ ((editHandler s id token title description user).1).posts → q.id = id →
        q.title = jsSlice 200 (jsTrim title) ∧ q.title.length ≤ 200 ∧
        q.description = jsSlice 2000 (jsTrim description) ∧ q.description.length ≤ 2000) ∧
    (∀ (s : DB) (id userId : Nat) (text : String) (now newId : Nat) (s' : DB)
        (st : Nat) (c : CommentRow),
      commentHandler s id userId text now newId = (s', st, some c) →
        c.text = jsSlice 800 (jsTrim text) ∧ c.text ≠ "" ∧ c.text.length ≤ 800) := by
  refine ⟨?_, ?_, ?_⟩
  · intro req editToken now newId p hp
    obtain ⟨u, mainFile, -, -, -, -, htitle, hdesc, -⟩ :=
      uploadHandler_success req editToken now newId p hp
    exact ⟨htitle, hdesc, htitle ▸ jsSlice_length_le .., hdesc ▸ jsSlice_length_le ..⟩
  · intro s id token title description user q hst hq hid
    unfold editHandler at hst hq
    cases hg : getPost s id with
    | none => rw [hg] at hst; simp at hst
    | some row =>
      rw [hg] at hst hq
      simp only [] at hst hq
      split at hst
      · simp at hst
      next hden =>
        rw [if_neg hden] at hq
        simp only [] at hq
        obtain ⟨h1, h2⟩ := publishPost_text_of_mem s id _ _ q hq hid
        exact ⟨h1, h1 ▸ jsSlice_length_le .., h2, h2 ▸ jsSlice_length_le ..⟩
  · intro s id userId text now newId s' st c hc
    obtain ⟨h1, h2⟩ := commentHandler_success s id userId text now newId s' st c hc
    exact ⟨h1, h2, h1 ▸ jsSlice_length_le ..⟩

/-- Post 3 of `sampleDB` as stored after the witness edit call. -/
def editedSample : Post :=
  ⟨3, "h", "video", "T", "D", "du", "u", "published", "tk3", 9, "long"⟩

/-- C10 witness: concrete upload, edit and comment calls store the trimmed
and truncated texts. -/
theorem stored_text_sanitized_witness :
    (imageUploadPost.title = jsSlice 200 (jsTrim (imageUploadReq.title.getD "")) ∧
      imageUploadPost.description = jsSlice 2000 (jsTrim (imageUploadReq.description.getD "")) ∧
      imageUploadPost.title.length ≤ 200 ∧ imageUploadPost.description.length ≤ 2000) ∧
    (editedSample.title = jsSlice 200 (jsTrim " T ") ∧ editedSample.title.length ≤ 200 ∧
      editedSample.description = jsSlice 2000 (jsTrim "D") ∧
      editedSample.description.length ≤ 2000) ∧
    (commentSample.text = jsSlice 800 (jsTrim "  a comment  ") ∧
      commentSample.text ≠ "" ∧ commentSample.text.length ≤ 800) :=
  ⟨stored_text_sanitized.1 imageUploadReq "tok" 5 9 imageUploadPost (by decide),
    stored_text_sanitized.2.1 sampleDB 3 (some "tk3") " T " "D" none editedSample
      (by decide) (by decide) rfl,
    stored_text_sanitized.2.2 sampleDB 1 7 "  a comment  " 3 100
      ((commentHandler sampleDB 1 7 "  a comment  " 3 100).1) 201 commentSample (by decide)⟩

/-- Users table with user 1 banned. -/
def bannedDB : DB :=
  { DB.empty with users := [⟨1, "d1", "alice", none, false, true, false⟩] }

/-- Session cookie signed for user 1 before the ban: the payload carries
`isBanned = false` and the signature still verifies. -/
def staleCookie : JwtCookie :=
  ⟨⟨1, "d1", "alice", none, false, false⟩, true⟩

/-- C5 counterexample: user 1 is banned in the users table
(`bannedDB.users.all isBanned`), their pre-ban session cookie is still
validly signed, yet `authOptional` accepts the request as that authenticated
user instead of rejecting it — the ban check reads the `isBanned` flag of
the cookie payload, and the `getUserById` fallback selects neither
`isAdmin` nor `isBanned`, so a ban recorded only in the database does not
reject the next request. -/
theorem banned_user_session_accepted :
    (bannedDB.users.all fun u => u.isBanned) = true ∧
    authOptional bannedDB (some staleCookie)
      = AuthResult.authed ⟨1, "d1", "alice", none, false, false⟩ ∧
    authOptional bannedDB (some staleCookie) ≠ AuthResult.bannedReject := by
  refine ⟨rfl, rfl, by decide⟩

/-- C5 amended: the ban check of `authOptional` is driven by the cookie
payload, not the users table: a still-valid session cookie whose payload
carries `isBanned = true` is rejected with 403, and one whose payload
carries `isBanned = false` (with a discordId present) is accepted as that
user regardless of the `isBanned` value stored in the users table; a ban
recorded in the database therefore takes effect only once a new session is
signed from the database (at login or a profile refresh), not necessarily on
the next request. -/
theorem ban_rejection_uses_cookie_flag (s : DB) (tok : JwtCookie) (u : SessionUser)
    (hv : tok.valid = true) (hn : normalizeUser tok.payload = some u) :
    (u.isBanned = true → authOptional s (some tok) = AuthResult.bannedReject) ∧
    (u.isBanned = false → authOptional s (some tok) = AuthResult.authed u) := by
  unfold authOptional
  simp only [] 
  rw [hv]
  simp only [Bool.not_true, Bool.false_eq_true, if_false]
  rw [hn]
  constructor <;> intro hb <;> simp [hb]

/-- C5 amended witness: a cookie whose payload says banned is rejected; the
stale cookie of the counterexample is accepted. -/
theorem ban_rejection_uses_cookie_flag_witness :
    (authOptional bannedDB (some ⟨⟨1, "d1", "alice", none, false, true⟩, true⟩)
      = AuthResult.bannedReject) ∧
    (authOptional bannedDB (some staleCookie)
      = AuthResult.authed ⟨1, "d1", "alice", none, false, false⟩) :=
  ⟨(ban_rejection_uses_cookie_flag bannedDB ⟨⟨1, "d1", "alice", none, false, true⟩, true⟩
      ⟨1, "d1", "alice", none, false, true⟩ rfl rfl).1 rfl,
    (ban_rejection_uses_cookie_flag bannedDB staleCookie
      ⟨1, "d1", "alice", none, false, false⟩ rfl rfl).2 rfl⟩

theorem pairwise_append_one {α : Type} {l : List α} {R : α → α → Prop} {x : α}
    (h : l.Pairwise R) (hx : ∀ a ∈ l, R a x) : (l ++ [x]).Pairwise R := by
  rw [List.pairwise_append]
  refine ⟨h, List.pairwise_singleton .., ?_⟩
  intro a ha b hb
  simp only [List.mem_singleton] at hb
  subst hb
  exact hx a ha

theorem pairwise_count_le_one {α : Type} (l : List α) (p : α → Bool)
    {R : α → α → Prop} (h : l.Pairwise R)
    (hp : ∀ a b, p a = true → p b = true → ¬R a b) :
    (l.filter p).length ≤ 1 := by
  have hf := List.Pairwise.filter p h
  cases hfl : l.filter p with
  | nil => simp
  | cons x tail =>
    cases tail with
    | nil => simp
    | cons y rest =>
      exfalso
      rw [hfl] at hf
      have hR : R x y := (List.pairwise_cons.mp hf).1 y (by simp)
      have hx : p x = true := List.of_mem_filter (l := l) (p := p) (by rw [hfl]; simp)
      have hy : p y = true := List.of_mem_filter (l := l) (p := p) (by rw [hfl]; simp)
      exact hp x y hx hy hR

theorem historyUnique_recordView (s : DB) (pid uid now : Nat) (h : historyUnique s) :
    historyUnique (recordView s pid uid now) := by
  unfold recordView
  split
  · show (s.history.map _).Pairwise _
    refine List.Pairwise.map _ ?_ h
    intro a b hab
    have ha : (if (a.postId == pid && a.userId == uid) = true
        then { a with viewedAt := now } else a).postId = a.postId ∧
        (if (a.postId == pid && a.userId == uid) = true
        then { a with viewedAt := now } else a).userId = a.userId := by
      split <;> exact ⟨rfl, rfl⟩
    have hb : (if (b.postId == pid && b.userId == uid) = true
        then { b with viewedAt := now } else b).postId = b.postId ∧
        (if (b.postId == pid && b.userId == uid) = true
        then { b with viewedAt := now } else b).userId = b.userId := by
      split <;> exact ⟨rfl, rfl⟩
    rw [ha.1, ha.2, hb.1, hb.2]
    exact hab
  next hno =>
    show (s.history ++ [(⟨pid, uid, now⟩ : HistoryRow)]).Pairwise _
    refine pairwise_append_one h ?_
    intro a ha
    rintro ⟨e1, e2⟩
    apply hno
    rw [List.any_eq_true]
    exact ⟨a, ha, by simp [e1, e2]⟩

theorem watchUnique_addWatch (s : DB) (pid uid now : Nat) (h : watchUnique s) :
    watchUnique (addWatch s pid uid now) := by
  unfold addWatch
  split
  · exact h
  next hno =>
    show (s.watchlist ++ [(⟨pid, uid, now⟩ : WatchRow)]).Pairwise _
    refine pairwise_append_one h ?_
    intro a ha
    rintro ⟨e1, e2⟩
    apply hno
    unfold hasWatch
    rw [List.any_eq_true]
    exact ⟨a, ha, by simp [e1, e2]⟩

theorem followsUnique_followInsert (s : DB) (fid : Nat) (t : String) (now : Nat)
    (h : followsUnique s) : followsUnique (followInsert s fid t now) := by
  unfold followInsert
  split
  · exact h
  next hno =>
    show (s.follows ++ [(⟨fid, t, now⟩ : FollowRow)]).Pairwise _
    refine pairwise_append_one h ?_
    intro a ha
    rintro ⟨e1, e2⟩
    apply hno
    unfold hasFollow
    rw [List.any_eq_true]
    exact ⟨a, ha, by simp [e1, e2]⟩

/-- C9 counterexample: the `comments` table has no UNIQUE(postId, userId)
constraint: two comment inserts by user 7 on post 1 leave two rows for that
pair, so the claimed at-most-one-row property fails for the Comment
relation (it holds for Like, HistoryView, WatchlistEntry and Follow). -/
theorem comment_pair_not_unique :
    ((((insertComment (insertComment sampleDB 1 7 "first" 1 100).1
        1 7 "second" 2 101).1).comments.filter
          fun c => c.postId == 1 && c.userId == 7).length = 2) ∧
    ¬((((insertComment (insertComment sampleDB 1 7 "first" 1 100).1
        1 7 "second" 2 101).1).comments.filter
          fun c => c.postId == 1 && c.userId == 7).length ≤ 1) := by
  exact ⟨rfl, by decide⟩

/-- C9 amended: the Like, HistoryView, WatchlistEntry and Follow relations
each carry a uniqueness constraint on their (user, target) pair: the insert
operations (`INSERT OR IGNORE` / `ON CONFLICT DO NOTHING` / upsert) and the
delete operations preserve the pairwise-distinctness invariants, and under
those invariants at most one row exists per pair.  Every row of these
relations carries a timestamp field (`createdAt`, `viewedAt`, `addedAt`).
The Comment relation has no uniqueness constraint: a user may have several
comment rows on the same post. -/
theorem join_relations_unique (s : DB) (pid uid now fid : Nat) (t : String)
    (h1 : likesUnique s) (h2 : historyUnique s) (h3 : watchUnique s)
    (h4 : followsUnique s) :
    likesUnique (insertLike s pid uid now) ∧ likesUnique (deleteLike s pid uid) ∧
    historyUnique (recordView s pid uid now) ∧
    watchUnique (addWatch s pid uid now) ∧ watchUnique (removeWatch s pid uid) ∧
    followsUnique (followInsert s fid t now) ∧ followsUnique (followDelete s fid t) ∧
    (∀ pid' uid', (s.likes.filter fun r => r.postId == pid' && r.userId == uid').length ≤ 1) ∧
    (∀ pid' uid', (s.history.filter fun r => r.postId == pid' && r.userId == uid').length ≤ 1) ∧
    (∀ pid' uid', (s.watchlist.filter fun r => r.postId == pid' && r.userId == uid').length ≤ 1) ∧
    (∀ fid' t', (s.follows.filter fun r =>
        r.followerId == fid' && r.followingDiscordId == t').length ≤ 1) := by
  refine ⟨likesUnique_insertLike s pid uid now h1, List.Pairwise.filter _ h1,
    historyUnique_recordView s pid uid now h2,
    watchUnique_addWatch s pid uid now h3, List.Pairwise.filter _ h3,
    followsUnique_followInsert s fid t now h4, List.Pairwise.filter _ h4,
    ?_, ?_, ?_, ?_⟩
  · intro pid' uid'
    refine pairwise_count_le_one _ _ h1 ?_
    intro a b ha hb hR
    simp only [Bool.and_eq_true, beq_iff_eq] at ha hb
    exact hR ⟨ha.1.trans hb.1.symm, ha.2.trans hb.2.symm⟩
  · intro pid' uid'
    refine pairwise_count_le_one _ _ h2 ?_
    intro a b ha hb hR
    simp only [Bool.and_eq_true, beq_iff_eq] at ha hb
    exact hR ⟨ha.1.trans hb.1.symm, ha.2.trans hb.2.symm⟩
  · intro pid' uid'
    refine pairwise_count_le_one _ _ h3 ?_
    intro a b ha hb hR
    simp only [Bool.and_eq_true, beq_iff_eq] at ha hb
    exact hR ⟨ha.1.trans hb.1.symm, ha.2.trans hb.2.symm⟩
  · intro fid' t'
    refine pairwise_count_le_one _ _ h4 ?_
    intro a b ha hb hR
    simp only [Bool.and_eq_true, beq_iff_eq] at ha hb
    exact hR ⟨ha.1.trans hb.1.symm, ha.2.trans hb.2.symm⟩

/-- C9 amended witness: the preservation and count bounds at a concrete
state and pair. -/
theorem join_relations_unique_witness :
    likesUnique (insertLike sampleDB 1 7 3) ∧ likesUnique (deleteLike sampleDB 1 7) ∧
    historyUnique (recordView sampleDB 1 7 3) ∧
    watchUnique (addWatch sampleDB 1 7 3) ∧ watchUnique (removeWatch sampleDB 1 7) ∧
    followsUnique (followInsert sampleDB 4 "du" 3) ∧
    followsUnique (followDelete sampleDB 4 "du") ∧
    (sampleDB.likes.filter fun r => r.postId == 2 && r.userId == 4).length ≤ 1 ∧
    (sampleDB.history.filter fun r => r.postId == 2 && r.userId == 4).length ≤ 1 ∧
    (sampleDB.watchlist.filter fun r => r.postId == 2 && r.userId == 4).length ≤ 1 ∧
    (sampleDB.follows.filter fun r =>
        r.followerId == 4 && r.followingDiscordId == "du").length ≤ 1 :=
  (fun h => ⟨h.1, h.2.1, h.2.2.1, h.2.2.2.1, h.2.2.2.2.1, h.2.2.2.2.2.1,
      h.2.2.2.2.2.2.1, h.2.2.2.2.2.2.2.1 2 4, h.2.2.2.2.2.2.2.2.1 2 4,
      h.2.2.2.2.2.2.2.2.2.1 2 4, h.2.2.2.2.2.2.2.2.2.2 4 "du"⟩)
    (join_relations_unique sampleDB 1 7 3 4 "du" (by decide) (by decide)
      (by decide) (by decide))

end BeardedVibes
